import Mathlib

/-!
# Verification of the ML predictive-maintenance monitor (`ml_monitor.py`)

A shallow embedding of the streaming anomaly-detection monitor of
`src/ml_monitor.py` (class `MLPredictiveMonitor`), together with proofs of the
specification's claims about it.

Modelling decisions:
* A sensor message (a Python dict) is a `Reading`: `machine_id` is total (no
  claim concerns a missing `machine_id`), the other fields are `Option`-valued
  so that a missing dict key is representable.  Numeric values are `ℚ`
  (exact arithmetic; the claims only compare against exact decimal thresholds).
* The fitted `StandardScaler`/`IsolationForest` pair is floating-point ML and
  cannot be embedded exactly; it is abstracted as an oracle
  `detect : List (List ℚ) → List ℚ → Bool × ℚ` mapping the (frozen) training
  set and a feature vector to `(is_anomaly, anomaly_score)`, exactly the
  interface of `detect_anomaly`.
* `pickle.dump` to `models/anomaly_detector.pkl` can fail; each processed
  message carries a `saveOk : Bool` environment bit.  Python exception
  semantics are modelled faithfully: mutations made before the raise are kept,
  the rest of `process_sensor_data` is skipped, and `on_message` catches the
  exception so the consumer loop survives.
* `client.publish` is recorded in an outbox list `published`.
* `train_events` is a ghost counter, incremented once per execution of
  `train_model`, used to state "training happens at most once".
* Display-only behaviour (`print` logging, the 4-decimal rounding of the score
  in the alert record, severity icons) is not modelled; no claim depends on it.
-/

/-- One sensor message, as decoded from JSON: `machine_id` plus the metric
fields that may or may not be present in the dict. -/
structure Reading where
  machine_id : String
  timestamp : Option String
  temperature : Option ℚ
  vibration : Option ℚ
  current : Option ℚ
  pressure : Option ℚ
  rpm : Option ℚ
deriving DecidableEq, Repr

/-- The raw-metrics snapshot stored inside an alert
(`alert["metrics"]` in `handle_anomaly`). -/
structure Metrics where
  temperature : ℚ
  vibration : ℚ
  current : ℚ
  pressure : ℚ
  rpm : ℚ
deriving DecidableEq, Repr

/-- The alert record assembled by `handle_anomaly`. -/
structure Alert where
  alert_id : String
  machine_id : String
  timestamp : String
  anomaly_score : ℚ
  metrics : Metrics
  severity : String
  recommendation : String
deriving DecidableEq, Repr

/-- Per-machine storage: `self.machine_data[machine_id]`, a dict with a
`deque(maxlen=50)` of readings and a list of alerts. -/
structure MachineState where
  readings : List Reading
  alerts : List Alert
deriving DecidableEq, Repr

/-- The mutable state of one `MLPredictiveMonitor` instance.  `machine_data` is
the Python dict as an association list (insertion order); `published` is the
outbox of alerts passed to `client.publish`; `train_events` is a ghost counter
of `train_model` executions. -/
structure MonitorState where
  machine_data : List (String × MachineState)
  alert_history : List Alert
  model_trained : Bool
  training_data : List (List ℚ)
  total_readings : ℕ
  anomalies_detected : ℕ
  published : List Alert
  train_events : ℕ
deriving DecidableEq, Repr

/-- `MLPredictiveMonitor.__init__`: empty storage, untrained model,
zeroed statistics. -/
def initState : MonitorState :=
  { machine_data := []
    alert_history := []
    model_trained := false
    training_data := []
    total_readings := 0
    anomalies_detected := 0
    published := []
    train_events := 0 }

/-- `self.min_training_samples = 30`. -/
def min_training_samples : ℕ := 30

/-- Dict lookup `self.machine_data[machine_id]` (as an option). -/
def lookupMachine (m : String) (md : List (String × MachineState)) :
    Option MachineState :=
  (md.find? (fun p => p.1 = m)).map (fun p => p.2)

/-- In-place update of the entry for key `m` (Python mutates the stored dict). -/
def updateMachine (m : String) (f : MachineState → MachineState)
    (md : List (String × MachineState)) : List (String × MachineState) :=
  md.map (fun p => if p.1 = m then (p.1, f p.2) else p)

/-- `deque(maxlen=50).append(r)`: append on the right, evicting the leftmost
element when the deque is full. -/
def dequeAppend (xs : List Reading) (r : Reading) : List Reading :=
  if xs.length < 50 then xs ++ [r] else xs.drop 1 ++ [r]

/-- `extract_features(data)`: the fixed-order feature vector
`[temperature, vibration, current, pressure, rpm]`, with `dict.get` defaulting
each absent field to `0`. -/
def extract_features (data : Reading) : List ℚ :=
  [data.temperature.getD 0,
   data.vibration.getD 0,
   data.current.getD 0,
   data.pressure.getD 0,
   data.rpm.getD 0]

/-- `calculate_severity(score)`. -/
def calculate_severity (score : ℚ) : String :=
  if score < -(1/2 : ℚ) then "CRITICAL"
  else if score < -(3/10 : ℚ) then "WARNING"
  else "INFO"

/-- The list of threshold-violation messages built by `get_recommendation`
from the four raw metrics, in source order. -/
def issuesOf (t v c r : ℚ) : List String :=
  (if t > 80 then ["Temperature exceeds safe threshold"] else []) ++
  (if v > 4 then ["Excessive vibration detected"] else []) ++
  (if c > 15 then ["High current draw"] else []) ++
  (if r < 1400 then ["RPM below optimal range"] else [])

/-- The string returned by `get_recommendation` once the four metrics have been
read from the dict. -/
def recommendation_of (t v c r : ℚ) : String :=
  if issuesOf t v c r ≠ [] then
    "Schedule inspection: " ++ String.intercalate "; " (issuesOf t v c r)
  else
    "Monitor closely for additional anomalies"

/-- `get_recommendation(data)`: reads `data["temperature"]`, `data["vibration"]`,
`data["current"]`, `data["rpm"]` (plain indexing, so a missing key raises
`KeyError`, modelled as `none`). -/
def get_recommendation (data : Reading) : Option String :=
  match data.temperature, data.vibration, data.current, data.rpm with
  | some t, some v, some c, some r => some (recommendation_of t v c r)
  | _, _, _, _ => none

/-- Python `f"{n:04d}"`: decimal digits of `n`, left-padded with zeros to at
least 4 characters. -/
def pad4 (n : ℕ) : String :=
  let s := toString n
  String.mk (List.replicate (4 - s.length) '0') ++ s

/-- The anomaly-detection oracle abstracting the fitted
`StandardScaler`/`IsolationForest` pair: from the (frozen) training set and a
feature vector, produce `(is_anomaly, anomaly_score)` — the interface of
`detect_anomaly`. -/
def Detector : Type := List (List ℚ) → List ℚ → Bool × ℚ

/-- `handle_anomaly(machine_id, data, score)`.  First `anomalies_detected` is
incremented; then the alert dict literal is evaluated, indexing
`data["timestamp"]` and the five metric keys — a missing key raises `KeyError`
there, leaving only the increment behind (`Bool` result: `true` iff no
exception).  On success the alert is appended to the machine's alert list and
the global history, and published. -/
def handle_anomaly (machine_id : String) (data : Reading) (score : ℚ)
    (s : MonitorState) : MonitorState × Bool :=
  let s1 := { s with anomalies_detected := s.anomalies_detected + 1 }
  match data.timestamp, data.temperature, data.vibration, data.current,
      data.pressure, data.rpm with
  | some ts, some t, some v, some c, some p, some r =>
      let alert : Alert :=
        { alert_id := "ALERT_" ++ pad4 s1.anomalies_detected
          machine_id := machine_id
          timestamp := ts
          anomaly_score := score
          metrics := { temperature := t, vibration := v, current := c,
                       pressure := p, rpm := r }
          severity := calculate_severity score
          recommendation := recommendation_of t v c r }
      ({ s1 with
          machine_data :=
            updateMachine machine_id
              (fun ms => { ms with alerts := ms.alerts ++ [alert] })
              s1.machine_data
          alert_history := s1.alert_history ++ [alert]
          published := s1.published ++ [alert] }, true)
  | _, _, _, _, _, _ => (s1, false)

/-- The tail of `process_sensor_data`: `if self.model_trained:` run
`detect_anomaly` on the features and dispatch to `handle_anomaly` /
`log_normal_operation`. -/
def scorePhase (detect : Detector) (machine_id : String) (data : Reading)
    (features : List ℚ) (s : MonitorState) : MonitorState :=
  if s.model_trained then
    let res := detect s.training_data features
    if res.1 then (handle_anomaly machine_id data res.2 s).1 else s
  else s

/-- `train_model()` up to and including `self.model_trained = True`.  Fitting
the scaler and the forest only mutates the abstracted model, so in the
embedding it is the ghost `train_events` increment plus the flag; the
subsequent pickle save is handled by the caller via `saveOk`. -/
def train_model (s : MonitorState) : MonitorState :=
  { s with model_trained := true, train_events := s.train_events + 1 }

/-- Storage initialisation and `readings.append(data)` portion of
`process_sensor_data`: create the machine entry on first sighting, then append
to the bounded deque. -/
def recordReading (machine_id : String) (data : Reading) (s : MonitorState) :
    MonitorState :=
  let md :=
    if (lookupMachine machine_id s.machine_data).isNone then
      s.machine_data ++ [(machine_id, { readings := [], alerts := [] })]
    else s.machine_data
  { s with
      machine_data :=
        updateMachine machine_id
          (fun ms => { ms with readings := dequeAppend ms.readings data }) md }

/-- `process_sensor_data(data)` as run under `on_message`'s `try/except`:
count the reading, store it, extract features; while untrained append to
`training_data` and train at the 30-sample threshold (a failed pickle save,
`saveOk = false`, raises after `model_trained = True`, skipping the scoring of
this reading; the exception is caught by `on_message`); finally score the
reading if the model is trained. -/
def process_sensor_data (detect : Detector) (saveOk : Bool) (data : Reading)
    (s : MonitorState) : MonitorState :=
  let machine_id := data.machine_id
  let s1 := { s with total_readings := s.total_readings + 1 }
  let s2 := recordReading machine_id data s1
  let features := extract_features data
  if s2.model_trained = false then
    let s3 := { s2 with training_data := s2.training_data ++ [features] }
    if min_training_samples ≤ s3.training_data.length then
      let s4 := train_model s3
      if saveOk then scorePhase detect machine_id data features s4 else s4
    else scorePhase detect machine_id data features s3
  else scorePhase detect machine_id data features s2

/-- A whole process lifetime: fold `process_sensor_data` over the stream of
messages, each paired with the environment's answer to the one-time model
save. -/
def runTrace (detect : Detector) (msgs : List (Reading × Bool)) : MonitorState :=
  msgs.foldl (fun s p => process_sensor_data detect p.2 p.1 s) initState

/-- All readings of the trace belonging to machine `m`, in arrival order. -/
def machineTrace (m : String) (msgs : List (Reading × Bool)) : List Reading :=
  (msgs.map (fun p => p.1)).filter (fun r => r.machine_id = m)

/-- The last `n` elements of a list, in order. -/
def takeLast (n : ℕ) (xs : List Reading) : List Reading :=
  xs.drop (xs.length - n)

/-- A reading containing every key the alert record indexes
(`timestamp` and the five metrics). -/
def complete (data : Reading) : Prop :=
  data.timestamp.isSome ∧ data.temperature.isSome ∧ data.vibration.isSome ∧
  data.current.isSome ∧ data.pressure.isSome ∧ data.rpm.isSome

instance (data : Reading) : Decidable (complete data) := by
  unfold complete; infer_instance

/-- The alert record literal of `handle_anomaly`, with `n` the value of
`anomalies_detected` after the increment. -/
def mkAlert (mid ts : String) (t v c p r sc : ℚ) (n : ℕ) : Alert :=
  { alert_id := "ALERT_" ++ pad4 n
    machine_id := mid
    timestamp := ts
    anomaly_score := sc
    metrics := { temperature := t, vibration := v, current := c,
                 pressure := p, rpm := r }
    severity := calculate_severity sc
    recommendation := recommendation_of t v c r }

/-- The collecting/ready dichotomy the training gate maintains: either the
monitor is still collecting — strictly fewer than 30 training samples, never
trained, and no alert ever created, stored or published — or it has trained
exactly once, at exactly 30 samples, and never appends to the training set
again. -/
def PhaseInv (s : MonitorState) : Prop :=
  (s.model_trained = false ∧ s.train_events = 0 ∧
    s.training_data.length < min_training_samples ∧
    s.alert_history = [] ∧ s.anomalies_detected = 0 ∧ s.published = [] ∧
    ∀ p ∈ s.machine_data, p.2.alerts = ([] : List Alert))
  ∨ (s.model_trained = true ∧ s.train_events = 1 ∧
      s.training_data.length = min_training_samples)

/-- All alerts stored inside per-machine lists, across machines. -/
def machineAlerts (md : List (String × MachineState)) : List Alert :=
  (md.map (fun p => p.2.alerts)).flatten

/-- A fixed normal-profile reading (the spec's §8 scenario), used as concrete
witness input. -/
def rNormal : Reading :=
  { machine_id := "M1", timestamp := some "2025-01-01T00:00:00"
    temperature := some 65, vibration := some 2, current := some 10
    pressure := some 6, rpm := some 1500 }

/-- A fixed abnormal reading (the spec's §8 scenario). -/
def rHot : Reading :=
  { machine_id := "M1", timestamp := some "2025-01-01T00:00:31"
    temperature := some 120, vibration := some 8, current := some 20
    pressure := some 6, rpm := some 1200 }

/-- `rHot` with the `timestamp` key missing from the message dict. -/
def rHotNoTs : Reading := { rHot with timestamp := none }

/-- A detector oracle that flags everything anomalous with score `-0.6`
(witness input). -/
def dAll : Detector := fun _ _ => (true, -(6/10 : ℚ))

/-- A detector oracle that flags a reading anomalous (score `-0.6`) exactly
when its temperature feature exceeds `100` (witness input; `rNormal` is
normal, `rHot` is anomalous). -/
def dHot : Detector := fun _ fs => (decide (fs.headD 0 > 100), -(6/10 : ℚ))

/-- The alert-id bookkeeping invariant of well-formed runs: the anomaly
counter equals the number of stored alerts, the i-th stored alert (0-based)
carries id `"ALERT_" ++ pad4 (i+1)`, and the published alerts are exactly the
stored ones in order. -/
def AIdInv (s : MonitorState) : Prop :=
  s.anomalies_detected = s.alert_history.length
  ∧ s.alert_history.map (fun a => a.alert_id)
      = (List.range s.alert_history.length).map
          (fun i => "ALERT_" ++ pad4 (i + 1))
  ∧ s.published = s.alert_history

/-- A trace whose 31st reading is anomalous but missing `timestamp`, followed
by a complete anomalous reading (counterexample input). -/
def msgsMalformed : List (Reading × Bool) :=
  List.replicate 30 (rNormal, true) ++ [(rHotNoTs, true), (rHot, true)]

/-- A well-formed trace: 30 normal readings then one anomalous one
(witness input). -/
def msgsWellFormed : List (Reading × Bool) :=
  List.replicate 30 (rNormal, true) ++ [(rHot, true)]

/-- A concrete state that has collected 29 training samples and is one reading
away from the training threshold (witness input). -/
def sCollect29 : MonitorState :=
  { machine_data := []
    alert_history := []
    model_trained := false
    training_data := List.replicate 29 [65, 2, 10, 6, 1500]
    total_readings := 29
    anomalies_detected := 0
    published := []
    train_events := 0 }

/-- A concrete state whose model is trained (witness input). -/
def sReady : MonitorState :=
  { machine_data := [("M1", { readings := [rNormal], alerts := [] })]
    alert_history := []
    model_trained := true
    training_data := List.replicate 30 [65, 2, 10, 6, 1500]
    total_readings := 30
    anomalies_detected := 0
    published := []
    train_events := 1 }

/-! ## Lemmas about the association-list machine store -/

theorem lookupMachine_update_self (m : String) (f : MachineState → MachineState)
    (md : List (String × MachineState)) :
    lookupMachine m (updateMachine m f md) = (lookupMachine m md).map f := by
  induction md with
  | nil => rfl
  | cons hd tl ih =>
    by_cases h : hd.1 = m
    · simp [lookupMachine, updateMachine, List.find?_cons_of_pos, h]
    · simp only [lookupMachine, updateMachine, List.map_cons, if_neg h] at ih ⊢
      rw [List.find?_cons_of_neg _ (by simpa using h),
        List.find?_cons_of_neg _ (by simpa using h)]
      exact ih

theorem lookupMachine_update_ne (m m' : String) (hne : m' ≠ m)
    (f : MachineState → MachineState) (md : List (String × MachineState)) :
    lookupMachine m' (updateMachine m f md) = lookupMachine m' md := by
  induction md with
  | nil => rfl
  | cons hd tl ih =>
    by_cases h : hd.1 = m
    · subst h
      simp only [lookupMachine, updateMachine, List.map_cons, if_pos rfl] at ih ⊢
      rw [List.find?_cons_of_neg _ (by simpa using Ne.symm hne),
        List.find?_cons_of_neg _ (by simpa using Ne.symm hne)]
      exact ih
    · by_cases h' : hd.1 = m'
      · simp only [lookupMachine, updateMachine, List.map_cons, if_neg h]
        rw [List.find?_cons_of_pos _ (by simpa using h'),
          List.find?_cons_of_pos _ (by simpa using h')]
      · simp only [lookupMachine, updateMachine, List.map_cons, if_neg h] at ih ⊢
        rw [List.find?_cons_of_neg _ (by simpa using h'),
          List.find?_cons_of_neg _ (by simpa using h')]
        exact ih

theorem lookupMachine_append (m : String) (md md' : List (String × MachineState)) :
    lookupMachine m (md ++ md') =
      ((lookupMachine m md).or (lookupMachine m md')) := by
  simp [lookupMachine, List.find?_append, Option.or, Option.map]
  cases md.find? (fun p => p.1 = m) <;> simp

theorem lookupMachine_singleton_self (m : String) (e : MachineState) :
    lookupMachine m [(m, e)] = some e := by
  simp [lookupMachine]

theorem lookupMachine_singleton_ne (m m' : String) (hne : m' ≠ m)
    (e : MachineState) : lookupMachine m' [(m, e)] = none := by
  simp [lookupMachine, List.find?_cons_of_neg, Ne.symm hne]

/-! ## Case analysis of `handle_anomaly` -/

theorem handle_anomaly_incomplete (mid : String) (data : Reading) (sc : ℚ)
    (s : MonitorState) (h : ¬ complete data) :
    handle_anomaly mid data sc s =
      ({ s with anomalies_detected := s.anomalies_detected + 1 }, false) := by
  rcases data with ⟨m, ts, t, v, c, p, r⟩
  cases ts <;> cases t <;> cases v <;> cases c <;> cases p <;> cases r <;>
    first
      | rfl
      | exact absurd ⟨rfl, rfl, rfl, rfl, rfl, rfl⟩ h

theorem handle_anomaly_complete (mid : String) (data : Reading) (sc : ℚ)
    (s : MonitorState) (ts : String) (t v c p r : ℚ)
    (hts : data.timestamp = some ts) (ht : data.temperature = some t)
    (hv : data.vibration = some v) (hc : data.current = some c)
    (hp : data.pressure = some p) (hr : data.rpm = some r) :
    handle_anomaly mid data sc s =
      ({ s with
          anomalies_detected := s.anomalies_detected + 1
          machine_data := updateMachine mid
            (fun ms => { ms with alerts :=
              ms.alerts ++ [mkAlert mid ts t v c p r sc (s.anomalies_detected + 1)] })
            s.machine_data
          alert_history := s.alert_history ++
            [mkAlert mid ts t v c p r sc (s.anomalies_detected + 1)]
          published := s.published ++
            [mkAlert mid ts t v c p r sc (s.anomalies_detected + 1)] }, true) := by
  rcases data with ⟨m, ts', t', v', c', p', r'⟩
  cases hts; cases ht; cases hv; cases hc; cases hp; cases hr
  rfl

/-! ## Projection lemmas for the pipeline stages -/

theorem recordReading_model_trained (mid : String) (data : Reading)
    (s : MonitorState) : (recordReading mid data s).model_trained = s.model_trained := rfl

theorem recordReading_training_data (mid : String) (data : Reading)
    (s : MonitorState) : (recordReading mid data s).training_data = s.training_data := rfl

theorem recordReading_alert_history (mid : String) (data : Reading)
    (s : MonitorState) : (recordReading mid data s).alert_history = s.alert_history := rfl

theorem recordReading_anomalies (mid : String) (data : Reading)
    (s : MonitorState) : (recordReading mid data s).anomalies_detected = s.anomalies_detected := rfl

theorem recordReading_published (mid : String) (data : Reading)
    (s : MonitorState) : (recordReading mid data s).published = s.published := rfl

theorem recordReading_train_events (mid : String) (data : Reading)
    (s : MonitorState) : (recordReading mid data s).train_events = s.train_events := rfl

theorem recordReading_total (mid : String) (data : Reading)
    (s : MonitorState) : (recordReading mid data s).total_readings = s.total_readings := rfl

theorem handle_anomaly_proj (mid : String) (data : Reading) (sc : ℚ)
    (s : MonitorState) :
    (handle_anomaly mid data sc s).1.model_trained = s.model_trained
    ∧ (handle_anomaly mid data sc s).1.training_data = s.training_data
    ∧ (handle_anomaly mid data sc s).1.train_events = s.train_events
    ∧ (handle_anomaly mid data sc s).1.total_readings = s.total_readings
    ∧ (handle_anomaly mid data sc s).1.anomalies_detected
        = s.anomalies_detected + 1 := by
  by_cases h : complete data
  · obtain ⟨hts, ht, hv, hc, hp, hr⟩ := h
    rw [Option.isSome_iff_exists] at hts ht hv hc hp hr
    obtain ⟨ts, hts⟩ := hts
    obtain ⟨t, ht⟩ := ht
    obtain ⟨v, hv⟩ := hv
    obtain ⟨c, hc⟩ := hc
    obtain ⟨p, hp⟩ := hp
    obtain ⟨r, hr⟩ := hr
    rw [handle_anomaly_complete mid data sc s ts t v c p r hts ht hv hc hp hr]
    exact ⟨rfl, rfl, rfl, rfl, rfl⟩
  · rw [handle_anomaly_incomplete mid data sc s h]
    exact ⟨rfl, rfl, rfl, rfl, rfl⟩

theorem scorePhase_not_trained (d : Detector) (mid : String) (data : Reading)
    (fs : List ℚ) (s : MonitorState) (h : s.model_trained = false) :
    scorePhase d mid data fs s = s := by
  simp [scorePhase, h]

theorem scorePhase_proj (d : Detector) (mid : String) (data : Reading)
    (fs : List ℚ) (s : MonitorState) :
    (scorePhase d mid data fs s).model_trained = s.model_trained
    ∧ (scorePhase d mid data fs s).training_data = s.training_data
    ∧ (scorePhase d mid data fs s).train_events = s.train_events
    ∧ (scorePhase d mid data fs s).total_readings = s.total_readings
    ∧ s.anomalies_detected ≤ (scorePhase d mid data fs s).anomalies_detected
    ∧ (scorePhase d mid data fs s).anomalies_detected
        ≤ s.anomalies_detected + 1 := by
  have h := handle_anomaly_proj mid data (d s.training_data fs).2 s
  by_cases hm : s.model_trained = true
  · by_cases hr : (d s.training_data fs).1 = true
    · simp only [scorePhase, hm, hr, if_true]
      exact ⟨h.1.trans hm, h.2.1, h.2.2.1, h.2.2.2.1,
        h.2.2.2.2 ▸ Nat.le_succ _, le_of_eq h.2.2.2.2⟩
    · rw [Bool.not_eq_true] at hr
      refine ⟨?_, ?_, ?_, ?_, ?_, ?_⟩ <;> simp [scorePhase, hm, hr]
  · rw [Bool.not_eq_true] at hm
    rw [scorePhase_not_trained d mid data fs s hm]
    exact ⟨rfl, rfl, rfl, rfl, le_refl _, Nat.le_succ _⟩

/-! ## Case equations for `process_sensor_data` -/

theorem process_eq_trained (d : Detector) (ok : Bool) (data : Reading)
    (s : MonitorState) (h : s.model_trained = true) :
    process_sensor_data d ok data s =
      scorePhase d data.machine_id data (extract_features data)
        (recordReading data.machine_id data
          { s with total_readings := s.total_readings + 1 }) := by
  simp only [process_sensor_data, recordReading_model_trained, h,
    Bool.true_eq_false, if_false]

theorem process_eq_collect (d : Detector) (ok : Bool) (data : Reading)
    (s : MonitorState) (h : s.model_trained = false)
    (hlen : s.training_data.length + 1 < min_training_samples) :
    process_sensor_data d ok data s =
      { recordReading data.machine_id data
          { s with total_readings := s.total_readings + 1 } with
          training_data := s.training_data ++ [extract_features data] } := by
  simp only [process_sensor_data, recordReading_model_trained, h, if_true,
    recordReading_training_data]
  rw [if_neg (by simp only [List.length_append, List.length_cons,
    List.length_nil]; omega)]
  rw [scorePhase_not_trained]
  rfl

theorem process_eq_train_ok (d : Detector) (data : Reading)
    (s : MonitorState) (h : s.model_trained = false)
    (hlen : min_training_samples ≤ s.training_data.length + 1) :
    process_sensor_data d true data s =
      scorePhase d data.machine_id data (extract_features data)
        (train_model
          { recordReading data.machine_id data
              { s with total_readings := s.total_readings + 1 } with
              training_data := s.training_data ++ [extract_features data] }) := by
  simp only [process_sensor_data, recordReading_model_trained, h, if_true,
    recordReading_training_data]
  rw [if_pos (by simp only [List.length_append, List.length_cons,
    List.length_nil]; omega)]

theorem process_eq_train_fail (d : Detector) (data : Reading)
    (s : MonitorState) (h : s.model_trained = false)
    (hlen : min_training_samples ≤ s.training_data.length + 1) :
    process_sensor_data d false data s =
      train_model
        { recordReading data.machine_id data
            { s with total_readings := s.total_readings + 1 } with
            training_data := s.training_data ++ [extract_features data] } := by
  simp only [process_sensor_data, recordReading_model_trained, h, if_true,
    recordReading_training_data]
  rw [if_pos (by simp only [List.length_append, List.length_cons,
    List.length_nil]; omega)]
  rw [if_neg (by simp)]

theorem runTrace_snoc (d : Detector) (msgs : List (Reading × Bool))
    (p : Reading × Bool) :
    runTrace d (msgs ++ [p]) =
      process_sensor_data d p.2 p.1 (runTrace d msgs) := by
  simp [runTrace, List.foldl_append]

/-! ## The collecting/ready phase invariant -/

theorem phaseInv_init : PhaseInv initState := by
  left
  refine ⟨rfl, rfl, by simp [initState, min_training_samples], rfl, rfl, rfl, ?_⟩
  intro p hp
  simp [initState] at hp

theorem recordReading_alerts_empty (mid : String) (data : Reading)
    (s : MonitorState)
    (h : ∀ p ∈ s.machine_data, p.2.alerts = ([] : List Alert)) :
    ∀ p ∈ (recordReading mid data s).machine_data,
      p.2.alerts = ([] : List Alert) := by
  intro p hp
  simp only [recordReading, updateMachine, List.mem_map] at hp
  obtain ⟨q, hq, hpq⟩ := hp
  have halerts : q.2.alerts = [] := by
    by_cases hnew : (lookupMachine mid s.machine_data).isNone = true
    · rw [if_pos hnew] at hq
      rcases List.mem_append.1 hq with hq | hq
      · exact h q hq
      · rw [List.mem_singleton.1 hq]
    · rw [if_neg hnew] at hq
      exact h q hq
  rw [← hpq]
  by_cases hqm : q.1 = mid
  · rw [if_pos hqm]
    exact halerts
  · rw [if_neg hqm]
    exact halerts

theorem readyInv_scorePhase (d : Detector) (mid : String) (data : Reading)
    (fs : List ℚ) (s : MonitorState) (h1 : s.model_trained = true)
    (h2 : s.train_events = 1)
    (h3 : s.training_data.length = min_training_samples) :
    (scorePhase d mid data fs s).model_trained = true
    ∧ (scorePhase d mid data fs s).train_events = 1
    ∧ (scorePhase d mid data fs s).training_data.length
        = min_training_samples := by
  obtain ⟨p1, p2, p3, _, _, _⟩ := scorePhase_proj d mid data fs s
  exact ⟨p1.trans h1, p3.trans h2, by rw [p2]; exact h3⟩

theorem phaseInv_step (d : Detector) (ok : Bool) (data : Reading)
    (s : MonitorState) (h : PhaseInv s) :
    PhaseInv (process_sensor_data d ok data s) := by
  rcases h with ⟨hmt, hev, hlen, hah, han, hpub, hma⟩ | ⟨hmt, hev, hlen⟩
  · by_cases hl : s.training_data.length + 1 < min_training_samples
    · rw [process_eq_collect d ok data s hmt hl]
      left
      refine ⟨hmt, hev, ?_, hah, han, hpub, ?_⟩
      · simp only [List.length_append, List.length_cons, List.length_nil]
        omega
      · exact recordReading_alerts_empty _ _ _ hma
    · have hge : min_training_samples ≤ s.training_data.length + 1 := by omega
      cases ok with
      | false =>
        rw [process_eq_train_fail d data s hmt hge]
        right
        refine ⟨rfl, ?_, ?_⟩
        · show s.train_events + 1 = 1
          omega
        · show (s.training_data ++ [extract_features data]).length
            = min_training_samples
          simp only [List.length_append, List.length_cons, List.length_nil]
          omega
      | true =>
        rw [process_eq_train_ok d data s hmt hge]
        right
        refine readyInv_scorePhase d data.machine_id data
          (extract_features data) _ rfl ?_ ?_
        · show s.train_events + 1 = 1
          omega
        · show (s.training_data ++ [extract_features data]).length
            = min_training_samples
          simp only [List.length_append, List.length_cons, List.length_nil]
          omega
  · rw [process_eq_trained d ok data s hmt]
    right
    exact readyInv_scorePhase d data.machine_id data
      (extract_features data) _ hmt hev hlen

theorem phaseInv_foldl (d : Detector) (msgs : List (Reading × Bool)) :
    ∀ s : MonitorState, PhaseInv s →
      PhaseInv (msgs.foldl (fun s p => process_sensor_data d p.2 p.1 s) s) := by
  induction msgs with
  | nil => intro s h; exact h
  | cons m rest ih =>
    intro s h
    exact ih _ (phaseInv_step d m.2 m.1 s h)

theorem phaseInv_runTrace (d : Detector) (msgs : List (Reading × Bool)) :
    PhaseInv (runTrace d msgs) :=
  phaseInv_foldl d msgs initState phaseInv_init

/-! ## Counter behaviour of one processing step -/

theorem process_counters (d : Detector) (ok : Bool) (data : Reading)
    (s : MonitorState) :
    (process_sensor_data d ok data s).total_readings = s.total_readings + 1
    ∧ s.anomalies_detected ≤ (process_sensor_data d ok data s).anomalies_detected
    ∧ (process_sensor_data d ok data s).anomalies_detected
        ≤ s.anomalies_detected + 1 := by
  by_cases hm : s.model_trained = true
  · rw [process_eq_trained d ok data s hm]
    obtain ⟨_, _, _, p4, p5, p6⟩ := scorePhase_proj d data.machine_id data
      (extract_features data)
      (recordReading data.machine_id data
        { s with total_readings := s.total_readings + 1 })
    exact ⟨p4, p5, p6⟩
  · rw [Bool.not_eq_true] at hm
    by_cases hl : s.training_data.length + 1 < min_training_samples
    · rw [process_eq_collect d ok data s hm hl]
      exact ⟨rfl, le_refl _, Nat.le_succ _⟩
    · have hge : min_training_samples ≤ s.training_data.length + 1 := by omega
      cases ok with
      | false =>
        rw [process_eq_train_fail d data s hm hge]
        exact ⟨rfl, le_refl _, Nat.le_succ _⟩
      | true =>
        rw [process_eq_train_ok d data s hm hge]
        obtain ⟨_, _, _, p4, p5, p6⟩ := scorePhase_proj d data.machine_id data
          (extract_features data)
          (train_model
            { recordReading data.machine_id data
                { s with total_readings := s.total_readings + 1 } with
                training_data := s.training_data ++ [extract_features data] })
        exact ⟨p4, p5, p6⟩

theorem anomalies_le_total_foldl (d : Detector) (msgs : List (Reading × Bool)) :
    ∀ s : MonitorState, s.anomalies_detected ≤ s.total_readings →
      (msgs.foldl (fun s p => process_sensor_data d p.2 p.1 s) s).anomalies_detected
        ≤ (msgs.foldl (fun s p => process_sensor_data d p.2 p.1 s) s).total_readings := by
  induction msgs with
  | nil => intro s h; exact h
  | cons m rest ih =>
    intro s h
    apply ih
    show (process_sensor_data d m.2 m.1 s).anomalies_detected
      ≤ (process_sensor_data d m.2 m.1 s).total_readings
    obtain ⟨ht, _, ha⟩ := process_counters d m.2 m.1 s
    omega

/-! ## The claims -/

/-- C1: for every sequence of processed readings, while fewer than 30 training
samples have been collected (equivalently, while `model_trained` is false), no
Alert is ever created, stored or published: `alert_history` is empty, every
machine's alert list is empty, `anomalies_detected` is 0, nothing has been
published — and indeed fewer than 30 training samples have been collected. -/
theorem C1_untrained_no_alerts (d : Detector) (msgs : List (Reading × Bool))
    (h : (runTrace d msgs).model_trained = false) :
    (runTrace d msgs).alert_history = []
    ∧ (runTrace d msgs).machine_data.all (fun p => p.2.alerts.isEmpty) = true
    ∧ (runTrace d msgs).anomalies_detected = 0
    ∧ (runTrace d msgs).published = []
    ∧ (runTrace d msgs).training_data.length < min_training_samples := by
  rcases phaseInv_runTrace d msgs with
    ⟨_, _, hlen, hah, han, hpub, hma⟩ | ⟨hmt, _, _⟩
  · refine ⟨hah, ?_, han, hpub, hlen⟩
    rw [List.all_eq_true]
    intro p hp
    rw [List.isEmpty_iff]
    exact hma p hp
  · rw [hmt] at h
    exact absurd h (by simp)

/-- Witness for C1 at a concrete input: after one normal reading (under an
all-anomalous detector) the model is untrained and no alert exists anywhere. -/
theorem C1_untrained_no_alerts_witness :
    (runTrace dAll [(rNormal, true)]).model_trained = false
    ∧ ((runTrace dAll [(rNormal, true)]).alert_history = []
      ∧ (runTrace dAll [(rNormal, true)]).machine_data.all
          (fun p => p.2.alerts.isEmpty) = true
      ∧ (runTrace dAll [(rNormal, true)]).anomalies_detected = 0
      ∧ (runTrace dAll [(rNormal, true)]).published = []
      ∧ (runTrace dAll [(rNormal, true)]).training_data.length
          < min_training_samples) :=
  ⟨by decide, C1_untrained_no_alerts dAll [(rNormal, true)] (by decide)⟩

/-- C2: `train_model` executes at most once per process lifetime, and the
training set never grows past the 30-sample threshold: once `model_trained` is
set no later reading appends to `training_data`, so a second threshold
crossing never happens. -/
theorem C2_train_at_most_once (d : Detector) (msgs : List (Reading × Bool)) :
    (runTrace d msgs).train_events ≤ 1
    ∧ (runTrace d msgs).training_data.length ≤ min_training_samples
    ∧ ((runTrace d msgs).model_trained = true ↔
        (runTrace d msgs).train_events = 1) := by
  rcases phaseInv_runTrace d msgs with
    ⟨hmt, hev, hlen, _, _, _, _⟩ | ⟨hmt, hev, hlen⟩
  · rw [hev, hmt]
    exact ⟨by omega, by omega, by simp⟩
  · rw [hev, hmt, hlen]
    exact ⟨by omega, by omega, by simp⟩

/-- C4: counters: each `process_sensor_data` call increments `total_readings`
exactly once and `anomalies_detected` at most once, both start at 0, and
`anomalies_detected ≤ total_readings` holds after every processed reading. -/
theorem C4_anomalies_le_total :
    (∀ (d : Detector) (ok : Bool) (data : Reading) (s : MonitorState),
      (process_sensor_data d ok data s).total_readings = s.total_readings + 1
      ∧ s.anomalies_detected
          ≤ (process_sensor_data d ok data s).anomalies_detected
      ∧ (process_sensor_data d ok data s).anomalies_detected
          ≤ s.anomalies_detected + 1)
    ∧ initState.total_readings = 0
    ∧ initState.anomalies_detected = 0
    ∧ ∀ (d : Detector) (msgs : List (Reading × Bool)),
        (runTrace d msgs).anomalies_detected
          ≤ (runTrace d msgs).total_readings := by
  refine ⟨process_counters, rfl, rfl, ?_⟩
  intro d msgs
  exact anomalies_le_total_foldl d msgs initState (le_refl 0)

/-- C5: severity classification is a pure, total, deterministic function of
the anomaly score alone: `CRITICAL` iff `score < -0.5`, `WARNING` iff
`-0.5 <= score < -0.3`, `INFO` otherwise; in particular `-0.6 → CRITICAL`,
`-0.4 → WARNING`, `-0.1 → INFO`. -/
theorem C5_severity_classification (score : ℚ) :
    (calculate_severity score = "CRITICAL" ↔ score < -(1/2 : ℚ))
    ∧ (calculate_severity score = "WARNING" ↔
        -(1/2 : ℚ) ≤ score ∧ score < -(3/10 : ℚ))
    ∧ (calculate_severity score = "INFO" ↔ -(3/10 : ℚ) ≤ score)
    ∧ calculate_severity (-(6/10 : ℚ)) = "CRITICAL"
    ∧ calculate_severity (-(4/10 : ℚ)) = "WARNING"
    ∧ calculate_severity (-(1/10 : ℚ)) = "INFO" := by
  refine ⟨?_, ?_, ?_, by norm_num [calculate_severity],
    by norm_num [calculate_severity], by norm_num [calculate_severity]⟩ <;>
    unfold calculate_severity <;> split_ifs with h1 h2 <;>
    simp_all <;> linarith

set_option maxRecDepth 8192

/-- C7: the recommendation is a deterministic rule-based function of the raw
metrics alone (`recommendation_of` takes no anomaly score): for a reading
carrying the four metric keys it returns the joined violation messages of
exactly the violated thresholds (`temperature > 80`, `vibration > 4.0`,
`current > 15`, `rpm < 1400`), the generic monitor-closely message iff none is
violated, and on `temperature=95, vibration=1, current=5, rpm=1500` it yields
precisely the temperature-threshold text and no other. -/
theorem C7_recommendation_rules (data : Reading) (t v c r : ℚ)
    (ht : data.temperature = some t) (hv : data.vibration = some v)
    (hc : data.current = some c) (hr : data.rpm = some r) :
    get_recommendation data = some (recommendation_of t v c r)
    ∧ (recommendation_of t v c r = "Monitor closely for additional anomalies"
        ↔ ¬(t > 80) ∧ ¬(v > 4) ∧ ¬(c > 15) ∧ ¬(r < 1400))
    ∧ (("Temperature exceeds safe threshold".toList
        <:+: (recommendation_of t v c r).toList) ↔ t > 80)
    ∧ (("Excessive vibration detected".toList
        <:+: (recommendation_of t v c r).toList) ↔ v > 4)
    ∧ (("High current draw".toList
        <:+: (recommendation_of t v c r).toList) ↔ c > 15)
    ∧ (("RPM below optimal range".toList
        <:+: (recommendation_of t v c r).toList) ↔ r < 1400)
    ∧ recommendation_of 95 1 5 1500
        = "Schedule inspection: Temperature exceeds safe threshold"
    ∧ ("Temperature exceeds safe threshold".toList
        <:+: (recommendation_of 95 1 5 1500).toList)
    ∧ ¬("Excessive vibration detected".toList
        <:+: (recommendation_of 95 1 5 1500).toList)
    ∧ ¬("High current draw".toList
        <:+: (recommendation_of 95 1 5 1500).toList)
    ∧ ¬("RPM below optimal range".toList
        <:+: (recommendation_of 95 1 5 1500).toList) := by
  refine ⟨by simp [get_recommendation, ht, hv, hc, hr], ?_, ?_, ?_, ?_, ?_,
    by decide, by decide, by decide, by decide, by decide⟩ <;>
    by_cases h1 : t > 80 <;> by_cases h2 : v > 4 <;> by_cases h3 : c > 15 <;>
    by_cases h4 : r < 1400 <;>
    simp [recommendation_of, issuesOf, h1, h2, h3, h4] <;> decide

/-- Witness for C7 at a concrete input: the normal-profile reading. -/
theorem C7_recommendation_rules_witness :
    (rNormal.temperature = some 65 ∧ rNormal.vibration = some 2
      ∧ rNormal.current = some 10 ∧ rNormal.rpm = some 1500)
    ∧ (get_recommendation rNormal = some (recommendation_of 65 2 10 1500)
      ∧ (recommendation_of 65 2 10 1500
            = "Monitor closely for additional anomalies"
          ↔ ¬((65 : ℚ) > 80) ∧ ¬((2 : ℚ) > 4) ∧ ¬((10 : ℚ) > 15)
            ∧ ¬((1500 : ℚ) < 1400))
      ∧ (("Temperature exceeds safe threshold".toList
          <:+: (recommendation_of 65 2 10 1500).toList) ↔ (65 : ℚ) > 80)
      ∧ (("Excessive vibration detected".toList
          <:+: (recommendation_of 65 2 10 1500).toList) ↔ (2 : ℚ) > 4)
      ∧ (("High current draw".toList
          <:+: (recommendation_of 65 2 10 1500).toList) ↔ (10 : ℚ) > 15)
      ∧ (("RPM below optimal range".toList
          <:+: (recommendation_of 65 2 10 1500).toList) ↔ (1500 : ℚ) < 1400)
      ∧ recommendation_of 95 1 5 1500
          = "Schedule inspection: Temperature exceeds safe threshold"
      ∧ ("Temperature exceeds safe threshold".toList
          <:+: (recommendation_of 95 1 5 1500).toList)
      ∧ ¬("Excessive vibration detected".toList
          <:+: (recommendation_of 95 1 5 1500).toList)
      ∧ ¬("High current draw".toList
          <:+: (recommendation_of 95 1 5 1500).toList)
      ∧ ¬("RPM below optimal range".toList
          <:+: (recommendation_of 95 1 5 1500).toList)) :=
  ⟨⟨rfl, rfl, rfl, rfl⟩,
    C7_recommendation_rules rNormal 65 2 10 1500 rfl rfl rfl rfl⟩

/-! ## The bounded per-machine reading history (claim C3) -/

theorem takeLast_snoc (xs : List Reading) (r : Reading) :
    takeLast 50 (xs ++ [r]) = dequeAppend (takeLast 50 xs) r := by
  unfold takeLast dequeAppend
  rw [List.length_append]
  by_cases h : xs.length < 50
  · have h0 : xs.length - 50 = 0 := by omega
    have h1 : xs.length + 1 - 50 = 0 := by omega
    simp only [List.length_cons, List.length_nil, h0, h1, List.drop_zero]
    rw [if_pos h]
  · push_neg at h
    have hlen : (xs.drop (xs.length - 50)).length = 50 := by
      rw [List.length_drop]
      omega
    have h2 : xs.length + [r].length - 50 ≤ xs.length := by
      simp only [List.length_cons, List.length_nil]
      omega
    rw [if_neg (by omega), List.drop_drop, List.drop_append_of_le_length h2]
    congr 2
    simp only [List.length_cons, List.length_nil]
    omega

theorem takeLast_length_le (xs : List Reading) : (takeLast 50 xs).length ≤ 50 := by
  unfold takeLast
  rw [List.length_drop]
  omega

theorem lookup_update_map_readings (m mid : String)
    (f : MachineState → MachineState)
    (hf : ∀ ms, (f ms).readings = ms.readings)
    (md : List (String × MachineState)) :
    (lookupMachine m (updateMachine mid f md)).map (fun ms => ms.readings)
      = (lookupMachine m md).map (fun ms => ms.readings) := by
  by_cases h : m = mid
  · subst h
    rw [lookupMachine_update_self]
    cases lookupMachine m md <;> simp [hf]
  · rw [lookupMachine_update_ne mid m h f md]

theorem readings_lookup_handle (mid : String) (data : Reading) (sc : ℚ)
    (s : MonitorState) (m : String) :
    (lookupMachine m (handle_anomaly mid data sc s).1.machine_data).map
        (fun ms => ms.readings)
      = (lookupMachine m s.machine_data).map (fun ms => ms.readings) := by
  by_cases h : complete data
  · obtain ⟨hts, ht, hv, hc, hp, hr⟩ := h
    rw [Option.isSome_iff_exists] at hts ht hv hc hp hr
    obtain ⟨ts, hts⟩ := hts
    obtain ⟨t, ht⟩ := ht
    obtain ⟨v, hv⟩ := hv
    obtain ⟨c, hc⟩ := hc
    obtain ⟨p, hp⟩ := hp
    obtain ⟨r, hr⟩ := hr
    rw [handle_anomaly_complete mid data sc s ts t v c p r hts ht hv hc hp hr]
    exact lookup_update_map_readings m mid
      (fun ms => { ms with alerts :=
        ms.alerts ++ [mkAlert mid ts t v c p r sc (s.anomalies_detected + 1)] })
      (fun ms => rfl) s.machine_data
  · rw [handle_anomaly_incomplete mid data sc s h]

theorem readings_lookup_scorePhase (d : Detector) (mid : String)
    (data : Reading) (fs : List ℚ) (s : MonitorState) (m : String) :
    (lookupMachine m (scorePhase d mid data fs s).machine_data).map
        (fun ms => ms.readings)
      = (lookupMachine m s.machine_data).map (fun ms => ms.readings) := by
  by_cases hm : s.model_trained = true
  · by_cases hr : (d s.training_data fs).1 = true
    · simp only [scorePhase, hm, hr, if_true]
      exact readings_lookup_handle mid data (d s.training_data fs).2 s m
    · rw [Bool.not_eq_true] at hr
      simp only [scorePhase, hm, hr, if_true, Bool.false_eq_true, if_false]
  · rw [Bool.not_eq_true] at hm
    rw [scorePhase_not_trained d mid data fs s hm]

theorem readings_lookup_recordReading (mid : String) (data : Reading)
    (s : MonitorState) (m : String) :
    (lookupMachine m (recordReading mid data s).machine_data).map
        (fun ms => ms.readings)
      = (if mid = m
          then some (dequeAppend
            (((lookupMachine m s.machine_data).map
                (fun ms => ms.readings)).getD []) data)
          else (lookupMachine m s.machine_data).map (fun ms => ms.readings)) := by
  by_cases h : mid = m
  · subst h
    rw [if_pos rfl]
    simp only [recordReading]
    by_cases hnew : (lookupMachine mid s.machine_data).isNone = true
    · rw [if_pos hnew, lookupMachine_update_self, lookupMachine_append,
        lookupMachine_singleton_self]
      rw [Option.isNone_iff_eq_none] at hnew
      rw [hnew]
      rfl
    · rw [if_neg hnew, lookupMachine_update_self]
      cases hms : lookupMachine mid s.machine_data with
      | none =>
        rw [hms] at hnew
        simp at hnew
      | some ms0 => rfl
  · rw [if_neg h]
    simp only [recordReading]
    by_cases hnew : (lookupMachine mid s.machine_data).isNone = true
    · rw [if_pos hnew, lookupMachine_update_ne mid m (fun hc => h hc.symm) _,
        lookupMachine_append, lookupMachine_singleton_ne mid m
          (fun hc => h hc.symm), Option.or_none]
    · rw [if_neg hnew, lookupMachine_update_ne mid m (fun hc => h hc.symm) _]

theorem readings_view_process (d : Detector) (ok : Bool) (data : Reading)
    (s : MonitorState) (m : String) :
    (lookupMachine m (process_sensor_data d ok data s).machine_data).map
        (fun ms => ms.readings)
      = (if data.machine_id = m
          then some (dequeAppend
            (((lookupMachine m s.machine_data).map
                (fun ms => ms.readings)).getD []) data)
          else (lookupMachine m s.machine_data).map (fun ms => ms.readings)) := by
  by_cases hm : s.model_trained = true
  · rw [process_eq_trained d ok data s hm, readings_lookup_scorePhase]
    exact readings_lookup_recordReading data.machine_id data _ m
  · rw [Bool.not_eq_true] at hm
    by_cases hl : s.training_data.length + 1 < min_training_samples
    · rw [process_eq_collect d ok data s hm hl]
      exact readings_lookup_recordReading data.machine_id data _ m
    · have hge : min_training_samples ≤ s.training_data.length + 1 := by omega
      cases ok with
      | false =>
        rw [process_eq_train_fail d data s hm hge]
        exact readings_lookup_recordReading data.machine_id data _ m
      | true =>
        rw [process_eq_train_ok d data s hm hge, readings_lookup_scorePhase]
        exact readings_lookup_recordReading data.machine_id data _ m

theorem machineTrace_snoc (m : String) (msgs : List (Reading × Bool))
    (p : Reading × Bool) :
    machineTrace m (msgs ++ [p])
      = machineTrace m msgs
          ++ (if p.1.machine_id = m then [p.1] else []) := by
  by_cases hpm : p.1.machine_id = m <;>
    simp [machineTrace, List.filter_append, List.filter, hpm]

theorem readings_view_runTrace (d : Detector) (msgs : List (Reading × Bool))
    (m : String) :
    (lookupMachine m (runTrace d msgs).machine_data).map (fun ms => ms.readings)
      = (if machineTrace m msgs = [] then none
          else some (takeLast 50 (machineTrace m msgs))) := by
  induction msgs using List.reverseRecOn with
  | nil => simp [runTrace, initState, lookupMachine, machineTrace]
  | append_singleton msgs p ih =>
    rw [runTrace_snoc, readings_view_process, machineTrace_snoc]
    by_cases hpm : p.1.machine_id = m
    · rw [if_pos hpm, if_pos hpm, ih]
      by_cases hnil : machineTrace m msgs = []
      · rw [hnil]
        simp [dequeAppend, takeLast]
      · rw [if_neg hnil, if_neg (by simp), takeLast_snoc]
        rfl
    · rw [if_neg hpm, if_neg hpm, ih]
      simp

/-- C3: for every machine and every processed trace, the stored reading
history of that machine is exactly the (at most) 50 most recent readings of
that machine in arrival order — the deque holds `takeLast 50` of the machine's
readings, the oldest being evicted on overflow — and its length never
exceeds 50.  A machine has an entry iff it has appeared in the trace. -/
theorem C3_bounded_history (d : Detector) (msgs : List (Reading × Bool))
    (m : String) :
    (lookupMachine m (runTrace d msgs).machine_data).map (fun ms => ms.readings)
      = (if machineTrace m msgs = [] then none
          else some (takeLast 50 (machineTrace m msgs)))
    ∧ ((lookupMachine m (runTrace d msgs).machine_data).map
        (fun ms => ms.readings.length)).getD 0 ≤ 50 := by
  refine ⟨readings_view_runTrace d msgs m, ?_⟩
  have h := readings_view_runTrace d msgs m
  cases hlk : lookupMachine m (runTrace d msgs).machine_data with
  | none => simp
  | some ms =>
    rw [hlk] at h
    by_cases hnil : machineTrace m msgs = []
    · rw [if_pos hnil] at h
      simp at h
    · rw [if_neg hnil] at h
      simp at h ⊢
      rw [h]
      exact takeLast_length_le _

/-! ## Scoring of anomalous readings (claims C8, C9, C10) -/

theorem scorePhase_anomaly (d : Detector) (mid : String) (data : Reading)
    (fs : List ℚ) (s : MonitorState) (sc : ℚ) (hm : s.model_trained = true)
    (hdet : d s.training_data fs = (true, sc)) :
    scorePhase d mid data fs s = (handle_anomaly mid data sc s).1 := by
  simp only [scorePhase, hm, hdet, if_true]

theorem machineAlerts_update_keep (mid : String)
    (f : MachineState → MachineState)
    (hf : ∀ ms, (f ms).alerts = ms.alerts)
    (md : List (String × MachineState)) :
    machineAlerts (updateMachine mid f md) = machineAlerts md := by
  unfold machineAlerts updateMachine
  rw [List.map_map]
  congr 1
  apply List.map_congr_left
  intro p _
  by_cases h : p.1 = mid
  · simp [h, hf]
  · simp [h]

theorem machineAlerts_recordReading (mid : String) (data : Reading)
    (s : MonitorState) :
    machineAlerts (recordReading mid data s).machine_data
      = machineAlerts s.machine_data := by
  simp only [recordReading]
  rw [machineAlerts_update_keep mid
    (fun ms => { ms with readings := dequeAppend ms.readings data })
    (fun ms => rfl)]
  by_cases hnew : (lookupMachine mid s.machine_data).isNone = true
  · rw [if_pos hnew]
    unfold machineAlerts
    rw [List.map_append, List.flatten_append]
    simp
  · rw [if_neg hnew]

/-- C10: a reading classified anomalous but missing one of the keys
`timestamp`, `temperature`, `vibration`, `current`, `pressure`, `rpm` makes
`handle_anomaly` increment `anomalies_detected` and then fail with a key
lookup error while building the alert record: no alert is appended to the
machine's alert list, the global history, or the publish channel; the reading
is still counted; the exception is absorbed by `on_message`'s `try/except`
(in the embedding the state is simply returned), and the consumed sequence
number leaves `anomalies_detected` ahead of the number of stored alerts. -/
theorem C10_incomplete_anomaly_consumes_id (d : Detector) (ok : Bool)
    (data : Reading) (s : MonitorState) (sc : ℚ)
    (hm : s.model_trained = true)
    (hdet : d s.training_data (extract_features data) = (true, sc))
    (hinc : ¬ complete data) :
    (process_sensor_data d ok data s).anomalies_detected
        = s.anomalies_detected + 1
    ∧ (process_sensor_data d ok data s).alert_history = s.alert_history
    ∧ (process_sensor_data d ok data s).published = s.published
    ∧ machineAlerts (process_sensor_data d ok data s).machine_data
        = machineAlerts s.machine_data
    ∧ (process_sensor_data d ok data s).total_readings
        = s.total_readings + 1 := by
  rw [process_eq_trained d ok data s hm,
    scorePhase_anomaly d data.machine_id data (extract_features data)
      (recordReading data.machine_id data
        { s with total_readings := s.total_readings + 1 }) sc hm hdet,
    handle_anomaly_incomplete data.machine_id data sc _ hinc]
  exact ⟨rfl, rfl, rfl,
    machineAlerts_recordReading data.machine_id data
      { s with total_readings := s.total_readings + 1 }, rfl⟩

/-- Witness for C10 at a concrete input: in a trained state, an anomalous
reading missing `timestamp` consumes sequence number 1 but stores and
publishes nothing. -/
theorem C10_incomplete_anomaly_consumes_id_witness :
    (sReady.model_trained = true
      ∧ dAll sReady.training_data (extract_features rHotNoTs)
          = (true, -(6/10 : ℚ))
      ∧ ¬ complete rHotNoTs)
    ∧ ((process_sensor_data dAll true rHotNoTs sReady).anomalies_detected
          = sReady.anomalies_detected + 1
      ∧ (process_sensor_data dAll true rHotNoTs sReady).alert_history
          = sReady.alert_history
      ∧ (process_sensor_data dAll true rHotNoTs sReady).published
          = sReady.published
      ∧ machineAlerts (process_sensor_data dAll true rHotNoTs sReady).machine_data
          = machineAlerts sReady.machine_data
      ∧ (process_sensor_data dAll true rHotNoTs sReady).total_readings
          = sReady.total_readings + 1) :=
  ⟨⟨rfl, rfl, by decide⟩,
    C10_incomplete_anomaly_consumes_id dAll true rHotNoTs sReady
      (-(6/10 : ℚ)) rfl rfl (by decide)⟩

/-- C9: the reading that supplies the 30th training sample is itself scored in
the same `process_sensor_data` call, immediately after `train_model` returns
(successful artifact save): if the detector flags its feature vector, that very
reading produces the first alert — built from its own timestamp, metrics, score
and machine id — in the same call. -/
theorem C9_threshold_reading_scored (d : Detector) (data : Reading)
    (s : MonitorState) (sc : ℚ) (ts : String) (t v c p r : ℚ)
    (hm : s.model_trained = false)
    (hlen : s.training_data.length + 1 = min_training_samples)
    (hdet : d (s.training_data ++ [extract_features data])
        (extract_features data) = (true, sc))
    (hts : data.timestamp = some ts) (ht : data.temperature = some t)
    (hv : data.vibration = some v) (hc : data.current = some c)
    (hp : data.pressure = some p) (hr : data.rpm = some r) :
    (process_sensor_data d true data s).model_trained = true
    ∧ (process_sensor_data d true data s).train_events = s.train_events + 1
    ∧ (process_sensor_data d true data s).alert_history
        = s.alert_history
            ++ [mkAlert data.machine_id ts t v c p r sc
                  (s.anomalies_detected + 1)]
    ∧ (process_sensor_data d true data s).anomalies_detected
        = s.anomalies_detected + 1
    ∧ (process_sensor_data d true data s).published
        = s.published
            ++ [mkAlert data.machine_id ts t v c p r sc
                  (s.anomalies_detected + 1)] := by
  rw [process_eq_train_ok d data s hm (by omega),
    scorePhase_anomaly d data.machine_id data (extract_features data)
      (train_model
        { recordReading data.machine_id data
            { s with total_readings := s.total_readings + 1 } with
            training_data := s.training_data ++ [extract_features data] })
      sc rfl hdet,
    handle_anomaly_complete data.machine_id data sc
      (train_model
        { recordReading data.machine_id data
            { s with total_readings := s.total_readings + 1 } with
            training_data := s.training_data ++ [extract_features data] })
      ts t v c p r hts ht hv hc hp hr]
  exact ⟨rfl, rfl, rfl, rfl, rfl⟩

/-- Witness for C9 at a concrete input: from a 29-sample state, the abnormal
reading that completes the training set is scored at once and yields the first
alert of the lifetime. -/
theorem C9_threshold_reading_scored_witness :
    (sCollect29.model_trained = false
      ∧ sCollect29.training_data.length + 1 = min_training_samples
      ∧ dAll (sCollect29.training_data ++ [extract_features rHot])
          (extract_features rHot) = (true, -(6/10 : ℚ))
      ∧ rHot.timestamp = some "2025-01-01T00:00:31"
      ∧ rHot.temperature = some 120 ∧ rHot.vibration = some 8
      ∧ rHot.current = some 20 ∧ rHot.pressure = some 6
      ∧ rHot.rpm = some 1200)
    ∧ ((process_sensor_data dAll true rHot sCollect29).model_trained = true
      ∧ (process_sensor_data dAll true rHot sCollect29).train_events
          = sCollect29.train_events + 1
      ∧ (process_sensor_data dAll true rHot sCollect29).alert_history
          = sCollect29.alert_history
              ++ [mkAlert rHot.machine_id "2025-01-01T00:00:31" 120 8 20 6 1200
                    (-(6/10 : ℚ)) (sCollect29.anomalies_detected + 1)]
      ∧ (process_sensor_data dAll true rHot sCollect29).anomalies_detected
          = sCollect29.anomalies_detected + 1
      ∧ (process_sensor_data dAll true rHot sCollect29).published
          = sCollect29.published
              ++ [mkAlert rHot.machine_id "2025-01-01T00:00:31" 120 8 20 6 1200
                    (-(6/10 : ℚ)) (sCollect29.anomalies_detected + 1)]) :=
  ⟨⟨rfl, by decide, rfl, rfl, rfl, rfl, rfl, rfl, rfl⟩,
    C9_threshold_reading_scored dAll rHot sCollect29 (-(6/10 : ℚ))
      "2025-01-01T00:00:31" 120 8 20 6 1200 rfl (by decide) rfl
      rfl rfl rfl rfl rfl rfl⟩

/-- C8: a failed write of the model artifact during the one-time training step
is not fatal: `model_trained` is already true (set before the save), the
training happened exactly once, this reading's scoring is skipped by the
propagating exception (caught in `on_message`), and the next anomalous
complete reading is scored against the fitted model and produces an alert. -/
theorem C8_save_failure_not_fatal (d : Detector) (data data2 : Reading)
    (ok2 : Bool) (s : MonitorState) (sc : ℚ)
    (hm : s.model_trained = false)
    (hlen : min_training_samples ≤ s.training_data.length + 1)
    (hdet : d (s.training_data ++ [extract_features data])
        (extract_features data2) = (true, sc))
    (hcomp : complete data2) :
    (process_sensor_data d false data s).model_trained = true
    ∧ (process_sensor_data d false data s).train_events = s.train_events + 1
    ∧ (process_sensor_data d false data s).training_data
        = s.training_data ++ [extract_features data]
    ∧ (process_sensor_data d false data s).alert_history = s.alert_history
    ∧ (process_sensor_data d false data s).anomalies_detected
        = s.anomalies_detected
    ∧ (process_sensor_data d ok2 data2
        (process_sensor_data d false data s)).anomalies_detected
          = s.anomalies_detected + 1
    ∧ (process_sensor_data d ok2 data2
        (process_sensor_data d false data s)).alert_history.length
          = s.alert_history.length + 1 := by
  obtain ⟨hts, ht, hv, hc, hp, hr⟩ := hcomp
  rw [Option.isSome_iff_exists] at hts ht hv hc hp hr
  obtain ⟨ts, hts⟩ := hts
  obtain ⟨t, ht⟩ := ht
  obtain ⟨v, hv⟩ := hv
  obtain ⟨c, hc⟩ := hc
  obtain ⟨p, hp⟩ := hp
  obtain ⟨r, hr⟩ := hr
  rw [process_eq_train_fail d data s hm hlen]
  rw [process_eq_trained d ok2 data2
    (train_model
      { recordReading data.machine_id data
          { s with total_readings := s.total_readings + 1 } with
          training_data := s.training_data ++ [extract_features data] }) rfl]
  rw [scorePhase_anomaly d data2.machine_id data2 (extract_features data2)
    (recordReading data2.machine_id data2
      { train_model
          { recordReading data.machine_id data
              { s with total_readings := s.total_readings + 1 } with
              training_data := s.training_data ++ [extract_features data] } with
          total_readings :=
            (train_model
              { recordReading data.machine_id data
                  { s with total_readings := s.total_readings + 1 } with
                  training_data :=
                    s.training_data ++ [extract_features data] }).total_readings
              + 1 }) sc rfl hdet]
  rw [handle_anomaly_complete data2.machine_id data2 sc _ ts t v c p r
    hts ht hv hc hp hr]
  refine ⟨rfl, rfl, rfl, rfl, rfl, rfl, ?_⟩
  rw [List.length_append]
  rfl

/-- Witness for C8 at a concrete input: the save fails on the
threshold-crossing reading; the model stays trained and the next anomalous
reading is alerted. -/
theorem C8_save_failure_not_fatal_witness :
    (sCollect29.model_trained = false
      ∧ min_training_samples ≤ sCollect29.training_data.length + 1
      ∧ dAll (sCollect29.training_data ++ [extract_features rNormal])
          (extract_features rHot) = (true, -(6/10 : ℚ))
      ∧ complete rHot)
    ∧ ((process_sensor_data dAll false rNormal sCollect29).model_trained = true
      ∧ (process_sensor_data dAll false rNormal sCollect29).train_events
          = sCollect29.train_events + 1
      ∧ (process_sensor_data dAll false rNormal sCollect29).training_data
          = sCollect29.training_data ++ [extract_features rNormal]
      ∧ (process_sensor_data dAll false rNormal sCollect29).alert_history
          = sCollect29.alert_history
      ∧ (process_sensor_data dAll false rNormal sCollect29).anomalies_detected
          = sCollect29.anomalies_detected
      ∧ (process_sensor_data dAll true rHot
          (process_sensor_data dAll false rNormal sCollect29)).anomalies_detected
            = sCollect29.anomalies_detected + 1
      ∧ (process_sensor_data dAll true rHot
          (process_sensor_data dAll false rNormal sCollect29)).alert_history.length
            = sCollect29.alert_history.length + 1) :=
  ⟨⟨rfl, by decide, rfl, by decide⟩,
    C8_save_failure_not_fatal dAll rNormal rHot true sCollect29 (-(6/10 : ℚ))
      rfl (by decide) rfl (by decide)⟩

/-! ## Alert-id sequencing (claim C6) -/

theorem scorePhase_cases (d : Detector) (mid : String) (data : Reading)
    (fs : List ℚ) (s : MonitorState) (hm : s.model_trained = true) :
    scorePhase d mid data fs s
      = (if (d s.training_data fs).1 = true
          then (handle_anomaly mid data (d s.training_data fs).2 s).1
          else s) := by
  simp only [scorePhase, hm, if_true]

theorem aInv_scorePhase (d : Detector) (mid : String) (data : Reading)
    (fs : List ℚ) (s : MonitorState) (hm : s.model_trained = true)
    (hdata : complete data) (h : AIdInv s) :
    AIdInv (scorePhase d mid data fs s) := by
  rw [scorePhase_cases d mid data fs s hm]
  by_cases hr : (d s.training_data fs).1 = true
  · rw [if_pos hr]
    obtain ⟨hts, ht, hv, hc, hp, hrp⟩ := hdata
    rw [Option.isSome_iff_exists] at hts ht hv hc hp hrp
    obtain ⟨ts, hts⟩ := hts
    obtain ⟨t, ht⟩ := ht
    obtain ⟨v, hv⟩ := hv
    obtain ⟨c, hc⟩ := hc
    obtain ⟨p, hp⟩ := hp
    obtain ⟨r, hrp⟩ := hrp
    rw [handle_anomaly_complete mid data (d s.training_data fs).2 s
      ts t v c p r hts ht hv hc hp hrp]
    obtain ⟨h1, h2, h3⟩ := h
    refine ⟨?_, ?_, ?_⟩
    · show s.anomalies_detected + 1
        = (s.alert_history ++ [mkAlert mid ts t v c p r
            (d s.training_data fs).2 (s.anomalies_detected + 1)]).length
      rw [List.length_append, h1]
      rfl
    · show (s.alert_history ++ [mkAlert mid ts t v c p r
          (d s.training_data fs).2 (s.anomalies_detected + 1)]).map
            (fun a => a.alert_id)
        = (List.range (s.alert_history ++ [mkAlert mid ts t v c p r
            (d s.training_data fs).2 (s.anomalies_detected + 1)]).length).map
              (fun i => "ALERT_" ++ pad4 (i + 1))
      have hlen : (s.alert_history ++ [mkAlert mid ts t v c p r
          (d s.training_data fs).2 (s.anomalies_detected + 1)]).length
            = s.alert_history.length + 1 := by
        rw [List.length_append]
        rfl
      rw [hlen, List.range_succ, List.map_append, List.map_append, h2]
      congr 1
      simp only [List.map_cons, List.map_nil, mkAlert, h1]
    · show s.published ++ _ = s.alert_history ++ _
      rw [h3]
  · rw [if_neg hr]
    exact h

theorem aInv_step (d : Detector) (ok : Bool) (data : Reading)
    (s : MonitorState) (hdata : complete data) (h : AIdInv s) :
    AIdInv (process_sensor_data d ok data s) := by
  by_cases hm : s.model_trained = true
  · rw [process_eq_trained d ok data s hm]
    exact aInv_scorePhase d data.machine_id data (extract_features data)
      (recordReading data.machine_id data
        { s with total_readings := s.total_readings + 1 }) hm hdata h
  · rw [Bool.not_eq_true] at hm
    by_cases hl : s.training_data.length + 1 < min_training_samples
    · rw [process_eq_collect d ok data s hm hl]
      exact h
    · have hge : min_training_samples ≤ s.training_data.length + 1 := by omega
      cases ok with
      | false =>
        rw [process_eq_train_fail d data s hm hge]
        exact h
      | true =>
        rw [process_eq_train_ok d data s hm hge]
        exact aInv_scorePhase d data.machine_id data (extract_features data)
          (train_model
            { recordReading data.machine_id data
                { s with total_readings := s.total_readings + 1 } with
                training_data := s.training_data ++ [extract_features data] })
          rfl hdata h

theorem aInv_foldl (d : Detector) (msgs : List (Reading × Bool)) :
    ∀ s : MonitorState, (∀ p ∈ msgs, complete p.1) → AIdInv s →
      AIdInv (msgs.foldl (fun s p => process_sensor_data d p.2 p.1 s) s) := by
  induction msgs with
  | nil => intro s _ h; exact h
  | cons m rest ih =>
    intro s hcomp h
    exact ih _ (fun p hp => hcomp p (List.mem_cons_of_mem m hp))
      (aInv_step d m.2 m.1 s (hcomp m (List.mem_cons_self m rest)) h)

/-- C6 counterexample: a run in which an anomalous reading lacking `timestamp`
precedes the first successful alert.  The first (and only) Alert ever created
and published carries `alert_id` `"ALERT_0002"`, not `"ALERT_0001"`, and
`anomalies_detected` is 2 at that moment — so the N-th Alert does not carry
sequence number N and the first published Alert is not `"ALERT_0001"`. -/
theorem C6_first_alert_not_0001 :
    (runTrace dHot msgsMalformed).alert_history.map (fun a => a.alert_id)
        = ["ALERT_0002"]
    ∧ (runTrace dHot msgsMalformed).published.map (fun a => a.alert_id)
        = ["ALERT_0002"]
    ∧ (runTrace dHot msgsMalformed).anomalies_detected = 2
    ∧ "ALERT_0002" ≠ "ALERT_0001" := by
  refine ⟨by decide, by decide, by decide, by decide⟩

/-- C6 (amended): `alert_id` is a strictly increasing zero-padded sequence
number; provided every processed reading carries all alert fields, the N-th
Alert created has `alert_id` `"ALERT_"` ++ N zero-padded to 4 digits, the
published alerts are exactly the stored ones in order, and
`anomalies_detected` always equals the number of alerts created — so the
first published Alert is `"ALERT_0001"` and `anomalies_detected` is 1 at that
moment. -/
theorem C6_alert_ids_sequential (d : Detector) (msgs : List (Reading × Bool))
    (hcomp : ∀ p ∈ msgs, complete p.1) :
    (runTrace d msgs).alert_history.map (fun a => a.alert_id)
        = (List.range (runTrace d msgs).alert_history.length).map
            (fun i => "ALERT_" ++ pad4 (i + 1))
    ∧ (runTrace d msgs).anomalies_detected
        = (runTrace d msgs).alert_history.length
    ∧ (runTrace d msgs).published = (runTrace d msgs).alert_history := by
  obtain ⟨h1, h2, h3⟩ :=
    aInv_foldl d msgs initState hcomp ⟨rfl, rfl, rfl⟩
  exact ⟨h2, h1, h3⟩

/-- Witness for the amended C6 at a concrete input: a well-formed run whose
single anomaly yields `"ALERT_0001"`. -/
theorem C6_alert_ids_sequential_witness :
    msgsWellFormed.all (fun p => decide (complete p.1)) = true
    ∧ ((runTrace dHot msgsWellFormed).alert_history.map (fun a => a.alert_id)
          = (List.range
              (runTrace dHot msgsWellFormed).alert_history.length).map
                (fun i => "ALERT_" ++ pad4 (i + 1))
      ∧ (runTrace dHot msgsWellFormed).anomalies_detected
          = (runTrace dHot msgsWellFormed).alert_history.length
      ∧ (runTrace dHot msgsWellFormed).published
          = (runTrace dHot msgsWellFormed).alert_history) :=
  ⟨by decide, C6_alert_ids_sequential dHot msgsWellFormed (by decide)⟩
